import Mathlib

/-
  Verification of the recording-session lifecycle and scheduler of
  `src/src/core/tiktok_recorder.py` (tiktok-live-recorder).

  The Python module is shallowly embedded: the external TikTok API, the
  clock, ffmpeg and the notification/upload sinks are modelled as oracles
  (explicit inputs), and each Python control path becomes a Lean function
  over those oracles.  Python exceptions become an explicit `Exc` sum type
  threaded through `Except`; observable actions (starting a session,
  sleeping, logging) are collected into an event trace.
-/

namespace TTLR

/-- `utils.enums.Mode` (declaration not under src; the three values used by
`tiktok_recorder.py`). -/
inductive Mode
  | MANUAL
  | AUTOMATIC
  | FOLLOWERS
  deriving DecidableEq, Repr

/-- `utils.enums.TikTokError` message kinds used by `tiktok_recorder.py`
(declaration not under src; `SEC_UID_FAILED` stands for the literal message
"Failed to retrieve sec_uid."). -/
inductive TikTokError
  | COUNTRY_BLACKLISTED
  | COUNTRY_BLACKLISTED_AUTO_MODE
  | COUNTRY_BLACKLISTED_FOLLOWERS_MODE
  | USER_NOT_CURRENTLY_LIVE
  | RETRIEVE_LIVE_URL
  | SEC_UID_FAILED
  deriving DecidableEq, Repr

/-- The Python exception kinds that `tiktok_recorder.py` raises or handles.
`userLiveError` is `UserLiveError`, `liveNotFound` is `LiveNotFound`,
`connectionError` is the builtin `ConnectionError`, `recorderError` is
`TikTokRecorderError`, `keyboardInterrupt` is `KeyboardInterrupt` (a
`BaseException`, not caught by `except Exception`), and `otherException`
stands for any other `Exception` subclass. -/
inductive Exc
  | userLiveError (msg : TikTokError)
  | liveNotFound (msg : TikTokError)
  | connectionError
  | recorderError (msg : TikTokError)
  | keyboardInterrupt
  | otherException
  deriving DecidableEq, Repr

/-- Observable actions of the scheduler and session code. -/
inductive Ev
  | sessionStart (user : String)
  | sleepSeconds (n : Nat)
  | pace
  | logInfo
  | logError
  deriving DecidableEq, Repr

namespace TimeOut

/-- `utils.enums.TimeOut.ONE_MINUTE` (declaration not under src): one minute
in seconds, the unit `time.sleep` multiplies the minute counts by. -/
def ONE_MINUTE : Nat := 60

/-- Modelled from the spec: `utils.enums.TimeOut.CONNECTION_CLOSED`, the
"connection closed" cooldown in minutes; the enum declaration is not under
src and the spec gives no numeric value, so the value is a placeholder (no
theorem depends on it). -/
def CONNECTION_CLOSED : Nat := 2

end TimeOut

/-- How one call of `start_recording` ends.  Every constructor is a normal
return: the Python function catches `KeyboardInterrupt`, `LiveNotFound` and
`Exception` itself, so it never lets an exception escape. -/
inductive SessionNote
  | completed
  | stoppedByUser
  | liveNotFoundLogged
  | errorLogged
  deriving DecidableEq, Repr

/-- Oracle inputs consumed by one `start_recording` call:
`live_url` is what `self.tiktok.get_live_url(room_id)` returns (`none` for a
falsy value), `ffmpeg` is how `record_with_ffmpeg` ends (it logs and
re-raises any exception, so its outcome is just the raised exception or
success), `convert` is how `VideoManagement.convert_flv_to_mp4` ends and
`upload` how `Telegram().upload` ends. -/
structure SessionEnv where
  live_url : Option String
  ffmpeg : Except Exc Unit
  convert : Except Exc Unit
  use_telegram : Bool
  upload : Except Exc Unit
  deriving Repr

/-- The `try` block of `TikTokRecorder.start_recording`: raise `LiveNotFound`
on a falsy live url, then run ffmpeg; conversion and upload failures are
swallowed by their own inner `except Exception` handlers (only a
`KeyboardInterrupt` escapes those inner handlers). -/
def start_recording_body (sess : SessionEnv) : Except Exc Unit :=
  match sess.live_url with
  | none => .error (.liveNotFound .RETRIEVE_LIVE_URL)
  | some _ =>
    match sess.ffmpeg with
    | .error e => .error e
    | .ok _ =>
      match sess.convert with
      | .error .keyboardInterrupt => .error .keyboardInterrupt
      | _ =>
        if sess.use_telegram then
          match sess.upload with
          | .error .keyboardInterrupt => .error .keyboardInterrupt
          | _ => .ok ()
        else .ok ()

/-- `TikTokRecorder.start_recording`: the `try` body dispatched through the
three handlers `except KeyboardInterrupt`, `except LiveNotFound`,
`except Exception`.  All handlers log/notify and return, so the function
always returns a `SessionNote` and never propagates an exception. -/
def start_recording (sess : SessionEnv) : SessionNote :=
  match start_recording_body sess with
  | .ok _ => .completed
  | .error .keyboardInterrupt => .stoppedByUser
  | .error (.liveNotFound _) => .liveNotFoundLogged
  | .error _ => .errorLogged

/-- `TikTokRecorder.check_country_blacklisted`.  `verdict` is the result of
`self.tiktok.is_country_blacklisted()` (`.error ()` when that call raises).
A raising call is logged at debug level and treated as not blacklisted.
When blacklisted: no `room_id` raises the generic error; otherwise
AUTOMATIC and FOLLOWERS raise their mode-specific errors and MANUAL
returns the verdict without raising. -/
def check_country_blacklisted (verdict : Except Unit Bool) (room_id : Option String)
    (mode : Mode) : Except Exc Bool :=
  let is_blacklisted : Bool :=
    match verdict with
    | .error _ => false
    | .ok b => b
  if is_blacklisted = false then .ok false
  else if room_id.isNone then .error (.recorderError .COUNTRY_BLACKLISTED)
  else if mode = Mode.AUTOMATIC then .error (.recorderError .COUNTRY_BLACKLISTED_AUTO_MODE)
  else if mode = Mode.FOLLOWERS then .error (.recorderError .COUNTRY_BLACKLISTED_FOLLOWERS_MODE)
  else .ok is_blacklisted

/-- The decimal digit characters, `digit n` being the character Python's
zero-padded `%` formats print for the digit value `n` (values ≥ 9 clamp;
every use keeps `n < 10`). -/
def digit : Nat → Char
  | 0 => '0'
  | 1 => '1'
  | 2 => '2'
  | 3 => '3'
  | 4 => '4'
  | 5 => '5'
  | 6 => '6'
  | 7 => '7'
  | 8 => '8'
  | _ => '9'

/-- Two-digit zero-padded decimal, the rendering of `%m`, `%d`, `%H`, `%M`,
`%S` in `time.strftime` for in-range field values. -/
def pad2 (n : Nat) : String := String.mk [digit (n / 10), digit (n % 10)]

/-- Four-digit decimal, the rendering of `%Y` for years in [1000, 9999]. -/
def pad4 (n : Nat) : String :=
  String.mk [digit (n / 1000), digit (n / 100 % 10), digit (n / 10 % 10), digit (n % 10)]

/-- A wall-clock timestamp at second resolution, as produced by
`time.localtime()`. -/
structure Timestamp where
  y : Nat
  mo : Nat
  d : Nat
  h : Nat
  mi : Nat
  s : Nat
  deriving DecidableEq, Repr

/-- Field ranges under which the `pad` renderings coincide with
`time.strftime`; real `time.localtime()` values always satisfy them. -/
def valid_time (t : Timestamp) : Prop :=
  1000 ≤ t.y ∧ t.y < 10000 ∧ t.mo < 100 ∧ t.d < 100 ∧ t.h < 100 ∧ t.mi < 100 ∧ t.s < 100

instance (t : Timestamp) : Decidable (valid_time t) := by
  unfold valid_time; infer_instance

/-- `time.strftime("%Y.%m.%d_%H-%M-%S", ...)` on a timestamp with in-range
fields. -/
def strftime (t : Timestamp) : String :=
  pad4 t.y ++ "." ++ pad2 t.mo ++ "." ++ pad2 t.d ++ "_" ++ pad2 t.h ++ "-" ++ pad2 t.mi
    ++ "-" ++ pad2 t.s

/-- The check `output.endswith("/") or output.endswith("\\")` from
`TikTokRecorder.__init__` (a one-character `endswith` holds exactly when the
last character matches). -/
def ends_with_sep (s : String) : Bool :=
  s.data.getLast? = some '/' || s.data.getLast? = some '\\'

/-- The output-directory normalization in `TikTokRecorder.__init__` on a
POSIX host (`os.name != "nt"`): a nonempty directory not already ending in a
separator gets a trailing `"/"`. -/
def normalize_output (output : String) : String :=
  if output = "" then output
  else if ends_with_sep output then output
  else output ++ "/"

/-- POSIX `os.path.join` for a relative second component: drop an empty
directory, insert `"/"` unless the directory already ends with one. -/
def path_join (dir file : String) : String :=
  if dir = "" then file
  else if dir.data.getLast? = some '/' then dir ++ file
  else dir ++ "/" ++ file

/-- The file name built in `start_recording`:
`f"TK_{user}_{current_date}.mp4"`. -/
def session_filename (user : String) (t : Timestamp) : String :=
  "TK_" ++ user ++ "_" ++ strftime t ++ ".mp4"

/-- The output path of `start_recording`:
`os.path.join(self.output, name) if self.output else name`, where
`self.output` is the already-normalized directory. -/
def output_path (normalized_dir user : String) (t : Timestamp) : String :=
  if normalized_dir = "" then session_filename user t
  else path_join normalized_dir (session_filename user t)

/-- The output path as a function of the raw constructor argument `output`:
constructor normalization followed by the `start_recording` path build. -/
def full_output_path (output user : String) (t : Timestamp) : String :=
  output_path (normalize_output output) user t

/-- `TikTokRecorder.manual_mode`, given the result of
`self.tiktok.is_room_alive(self.room_id)` (which may itself raise) and the
session oracles: raise `UserLiveError` when not live, otherwise run exactly
one `start_recording` and return its note. -/
def manual_mode (user : String) (alive : Except Exc Bool) (sess : SessionEnv) :
    List Ev × Except Exc SessionNote :=
  match alive with
  | .error e => ([], .error e)
  | .ok false => ([], .error (.userLiveError .USER_NOT_CURRENTLY_LIVE))
  | .ok true => ([.sessionStart user], .ok (start_recording sess))

/-- Oracle inputs consumed by one iteration of the `automatic_mode` loop:
`resolve` is the result of `self.tiktok.get_room_id_from_user(self.user)`,
`alive` and `sess` feed the inner `manual_mode` call. -/
structure AutoEnv where
  resolve : Except Exc String
  alive : Except Exc Bool
  sess : SessionEnv
  deriving Repr

/-- One iteration of the `while True` loop of
`TikTokRecorder.automatic_mode`: the `try` body (re-resolve, then
`manual_mode`) dispatched through the handlers `except UserLiveError`,
`except LiveNotFound`, `except ConnectionError`, `except Exception`.
`KeyboardInterrupt` is not an `Exception`, so it leaves the loop as the
`.error` branch. -/
def automatic_iteration (interval : Nat) (user : String) (a : AutoEnv) :
    List Ev × Except Exc Unit :=
  let body : List Ev × Except Exc Unit :=
    match a.resolve with
    | .error e => ([], .error e)
    | .ok _ =>
      let m := manual_mode user a.alive a.sess
      (m.1, m.2.map fun _ => ())
  match body.2 with
  | .ok _ => (body.1, .ok ())
  | .error (.userLiveError _) =>
      (body.1 ++ [.logInfo, .sleepSeconds (interval * TimeOut.ONE_MINUTE)], .ok ())
  | .error (.liveNotFound _) =>
      (body.1 ++ [.logError, .sleepSeconds (interval * TimeOut.ONE_MINUTE)], .ok ())
  | .error .connectionError =>
      (body.1 ++ [.logError, .sleepSeconds (TimeOut.CONNECTION_CLOSED * TimeOut.ONE_MINUTE)], .ok ())
  | .error .keyboardInterrupt => (body.1, .error .keyboardInterrupt)
  | .error _ => (body.1 ++ [.logError], .ok ())

/-- `TikTokRecorder.automatic_mode`, unrolled over a finite observation
window (one `AutoEnv` per loop iteration; the real loop has no terminal
condition, so an exhausted window ends with `.ok`).  An uncaught exception
ends the loop with `.error`. -/
def automatic_mode (interval : Nat) (user : String) :
    List AutoEnv → List Ev × Except Exc Unit
  | [] => ([], .ok ())
  | a :: rest =>
    match automatic_iteration interval user a with
    | (evs, .ok _) =>
      let r := automatic_mode interval user rest
      (evs ++ r.1, r.2)
    | (evs, .error e) => (evs, .error e)

/-- Lookup in the `active_recordings` dict of `followers_mode`, modelled as
an association list from follower name to a process-handle identifier. -/
def lookupA (reg : List (String × Nat)) (k : String) : Option Nat :=
  match reg with
  | [] => none
  | (k', v) :: rest => if k' = k then some v else lookupA rest k

/-- Removal of a key (`del active_recordings[follower]`); under unique keys
this is exactly Python dict deletion. -/
def eraseA (reg : List (String × Nat)) (k : String) : List (String × Nat) :=
  match reg with
  | [] => []
  | (k', v) :: rest => if k' = k then rest else (k', v) :: eraseA rest k

/-- The dict property: each follower has at most one registry binding. -/
def keysNodup (reg : List (String × Nat)) : Prop :=
  (reg.map Prod.fst).Nodup

instance (reg : List (String × Nat)) : Decidable (keysNodup reg) := by
  unfold keysNodup; infer_instance

/-- Oracle inputs for one sweep of `followers_mode`:
`alive_handle h` is `proc.is_alive()` for the process with handle `h`,
`room_id f` is `get_room_id_from_user(f)` (`none` for a falsy value),
`room_alive r` is `is_room_alive(r)`, and `resolve_raises f` says whether
the per-follower `try` body raises an `Exception` before a recording could
be started (such a raise is caught, logged, and the sweep continues). -/
structure FollowerEnv where
  alive_handle : Nat → Bool
  room_id : String → Option String
  room_alive : String → Bool
  resolve_raises : String → Bool

/-- The per-follower `try` block of `followers_mode`: resolve the room, skip
when not live, otherwise spawn a recording `Process`, bind its fresh handle
in the registry (`active_recordings[follower] = process`) and pace with
`time.sleep(2.5)`.  A raise inside the block is caught and logged. -/
def try_start (env : FollowerEnv) (reg : List (String × Nat)) (next : Nat) (f : String) :
    List (String × Nat) × Nat × List Ev :=
  if env.resolve_raises f then (reg, next, [.logError])
  else
    match env.room_id f with
    | none => (reg, next, [])
    | some r =>
      if env.room_alive r then
        ((f, next) :: eraseA reg f, next + 1, [.logInfo, .sessionStart f, .pace])
      else (reg, next, [])

/-- The whole per-follower step of `followers_mode`: when a handle is
registered and still alive, `continue` (skip); when registered but finished,
log and `del` the entry, then fall through to `try_start`; otherwise go
straight to `try_start`. -/
def process_follower (env : FollowerEnv) (reg : List (String × Nat)) (next : Nat)
    (f : String) : List (String × Nat) × Nat × List Ev :=
  match lookupA reg f with
  | some h =>
    if env.alive_handle h then (reg, next, [])
    else
      let r := try_start env (eraseA reg f) next f
      (r.1, r.2.1, .logInfo :: r.2.2)
  | none => try_start env reg next f

/-- The `for follower in followers` loop of one sweep. -/
def sweep_followers (env : FollowerEnv) (followers : List String)
    (reg : List (String × Nat)) (next : Nat) : List (String × Nat) × Nat × List Ev :=
  match followers with
  | [] => (reg, next, [])
  | f :: rest =>
    let r1 := process_follower env reg next f
    let r2 := sweep_followers env rest r1.1 r1.2.1
    (r2.1, r2.2.1, r1.2.2 ++ r2.2.2)

/-- Oracle inputs for one iteration of the outer `while True` loop of
`followers_mode`: `fetch` is the result of
`get_followers_list(self.sec_uid)` and `fenv` feeds the sweep. -/
structure SweepEnv where
  fetch : Except Exc (List String)
  fenv : FollowerEnv

/-- One iteration of the outer loop of `followers_mode`: on a fetched list,
sweep it, then sleep `automatic_interval` minutes; the iteration body is
dispatched through `except UserLiveError`, `except ConnectionError`,
`except Exception` (a `KeyboardInterrupt` leaves the loop). -/
def followers_iteration (interval : Nat) (s : SweepEnv) (reg : List (String × Nat))
    (next : Nat) : List (String × Nat) × Nat × List Ev × Except Exc Unit :=
  match s.fetch with
  | .ok fs =>
    let r := sweep_followers s.fenv fs reg next
    (r.1, r.2.1, r.2.2 ++ [.logInfo, .sleepSeconds (interval * TimeOut.ONE_MINUTE)], .ok ())
  | .error (.userLiveError _) =>
      (reg, next, [.logInfo, .sleepSeconds (interval * TimeOut.ONE_MINUTE)], .ok ())
  | .error .connectionError =>
      (reg, next, [.logError, .sleepSeconds (TimeOut.CONNECTION_CLOSED * TimeOut.ONE_MINUTE)], .ok ())
  | .error .keyboardInterrupt => (reg, next, [], .error .keyboardInterrupt)
  | .error _ => (reg, next, [.logError], .ok ())

/-- `TikTokRecorder.followers_mode`, unrolled over a finite observation
window of sweep iterations, threading the registry (which starts empty in
the Python function). -/
def followers_mode (interval : Nat) :
    List SweepEnv → List (String × Nat) → Nat →
      List (String × Nat) × Nat × List Ev × Except Exc Unit
  | [], reg, next => (reg, next, [], .ok ())
  | s :: rest, reg, next =>
    match followers_iteration interval s reg next with
    | (reg', next', evs, .ok _) =>
      let r := followers_mode interval rest reg' next'
      (r.1, r.2.1, evs ++ r.2.2.1, r.2.2.2)
    | (reg', next', evs, .error e) => (reg', next', evs, .error e)

/-- Oracle inputs consumed by `TikTokRecorder.__init__`: the blacklist query
(`.error ()` when `is_country_blacklisted()` raises), `get_sec_uid()`,
`get_room_and_user_from_url`, `get_user_from_room_id` (applied to the
possibly-`None` current room id) and `get_room_id_from_user`. -/
structure InitEnv where
  blacklist : Except Unit Bool
  sec_uid : Option String
  url_resolve : String → String × String
  user_from_room : Option String → Option String
  room_from_user : Option String → Option String

/-- The constructor arguments of `TikTokRecorder` that the embedded logic
reads. -/
structure Args where
  url : Option String
  user : Option String
  room_id : Option String
  mode : Mode
  automatic_interval : Nat
  output : String
  duration : Option Nat

/-- The recorder state a successful `__init__` leaves behind. -/
structure RecState where
  user : Option String
  room_id : Option String
  mode : Mode
  automatic_interval : Nat
  output : String
  duration : Option Nat
  sec_uid : Option String

/-- `TikTokRecorder.__init__`: normalize the output directory, run the
country-blacklist check (whose raise aborts construction), then either fetch
the `sec_uid` (FOLLOWERS) or resolve user and room id from the supplied
url/user/room_id. -/
def TikTokRecorder_init (env : InitEnv) (a : Args) : Except Exc RecState :=
  let output := normalize_output a.output
  match check_country_blacklisted env.blacklist a.room_id a.mode with
  | .error e => .error e
  | .ok _ =>
    if a.mode = Mode.FOLLOWERS then
      match env.sec_uid with
      | none => .error (.recorderError .SEC_UID_FAILED)
      | some s =>
        .ok { user := a.user, room_id := a.room_id, mode := a.mode,
              automatic_interval := a.automatic_interval, output := output,
              duration := a.duration, sec_uid := some s }
    else
      let p1 : Option String × Option String :=
        match a.url with
        | some u => ((env.url_resolve u).1, (env.url_resolve u).2)
        | none => (a.user, a.room_id)
      let user : Option String :=
        match p1.1 with
        | none => env.user_from_room p1.2
        | some u => some u
      let room_id : Option String :=
        match p1.2 with
        | none => env.room_from_user user
        | some r => some r
      .ok { user := user, room_id := room_id, mode := a.mode,
            automatic_interval := a.automatic_interval, output := output,
            duration := a.duration, sec_uid := none }

/-- Oracle inputs consumed by `TikTokRecorder.run`, one bundle per mode. -/
structure RunEnv where
  manual_alive : Except Exc Bool
  manual_sess : SessionEnv
  auto_steps : List AutoEnv
  sweeps : List SweepEnv

/-- `TikTokRecorder.run`: dispatch on the stored mode. -/
def run (st : RecState) (r : RunEnv) : List Ev × Except Exc Unit :=
  match st.mode with
  | .MANUAL =>
    let m := manual_mode (st.user.getD "") r.manual_alive r.manual_sess
    (m.1, m.2.map fun _ => ())
  | .AUTOMATIC => automatic_mode st.automatic_interval (st.user.getD "") r.auto_steps
  | .FOLLOWERS =>
    let f := followers_mode st.automatic_interval r.sweeps [] 0
    (f.2.2.1, f.2.2.2)

/-- Construction followed by `run`, the whole observable behavior of one
recorder process: a constructor raise yields an empty event trace. -/
def program (ienv : InitEnv) (renv : RunEnv) (a : Args) : List Ev × Except Exc Unit :=
  match TikTokRecorder_init ienv a with
  | .error e => ([], .error e)
  | .ok st => run st renv

/-- Modelled from the spec: the events driving the Session Controller's
buffered streaming loop (spec §4.1 step 4).  The file under src delegates
streaming to an external ffmpeg process (`record_with_ffmpeg`), so the
buffered read/flush loop described by the spec is not present under src and
is embedded from the spec's words: before each read the loop re-checks
liveness and the duration bound, a read yields a chunk of bytes, and
cancellation or a hard error ends the loop. -/
inductive StreamEvent
  | chunk (bytes : List Nat)
  | liveEnd
  | durationCutoff
  | cancel
  | fail
  deriving DecidableEq, Repr

/-- Modelled from the spec: the streaming loop's state — the local buffer,
the bytes already written to the output file, and all bytes read so far. -/
structure StreamState where
  buffer : List Nat
  file : List Nat
  readBytes : List Nat
  deriving DecidableEq, Repr

/-- Modelled from the spec: the flush threshold (512 KiB). -/
def BUFFER_SIZE : Nat := 512 * 1024

/-- Modelled from the spec: flushing appends the buffered bytes to the file
and empties the buffer. -/
def flushBuffer (st : StreamState) : StreamState :=
  { st with file := st.file ++ st.buffer, buffer := [] }

/-- Modelled from the spec: how the streaming loop exited. -/
inductive StreamExit
  | success
  | cancelled
  | errored
  deriving DecidableEq, Repr

/-- Modelled from the spec: one read of the streaming loop — append the
chunk to the buffer and flush once the buffer reaches `BUFFER_SIZE`. -/
def chunk_step (st : StreamState) (bs : List Nat) : StreamState :=
  if BUFFER_SIZE ≤ (st.buffer ++ bs).length
  then flushBuffer { st with buffer := st.buffer ++ bs, readBytes := st.readBytes ++ bs }
  else { st with buffer := st.buffer ++ bs, readBytes := st.readBytes ++ bs }

/-- Modelled from the spec: the buffered streaming loop.  Each chunk is
appended to the buffer, the buffer is flushed once it reaches `BUFFER_SIZE`,
and every exit path (end of source, liveness loss, duration cutoff,
cancellation, error) flushes the remaining buffered bytes unconditionally. -/
def stream_loop : List StreamEvent → StreamState → StreamState × StreamExit
  | [], st => (flushBuffer st, .success)
  | .liveEnd :: _, st => (flushBuffer st, .success)
  | .durationCutoff :: _, st => (flushBuffer st, .success)
  | .cancel :: _, st => (flushBuffer st, .cancelled)
  | .fail :: _, st => (flushBuffer st, .errored)
  | .chunk bs :: rest, st => stream_loop rest (chunk_step st bs)

/-! ### Helper lemmas: the registry association list -/

theorem lookupA_eq_none (reg : List (String × Nat)) (f : String)
    (h : f ∉ reg.map Prod.fst) : lookupA reg f = none := by
  induction reg with
  | nil => rfl
  | cons p rest ih =>
    obtain ⟨k, v⟩ := p
    simp only [List.map_cons, List.mem_cons] at h
    push_neg at h
    have hk : ¬ (k = f) := fun hk => h.1 hk.symm
    simp only [lookupA, if_neg hk]
    exact ih h.2

theorem mem_keys_eraseA (reg : List (String × Nat)) (f x : String)
    (h : x ∈ (eraseA reg f).map Prod.fst) : x ∈ reg.map Prod.fst := by
  induction reg with
  | nil => exact h
  | cons p rest ih =>
    obtain ⟨k, v⟩ := p
    by_cases hk : k = f
    · simp only [eraseA, if_pos hk] at h
      simp [h]
    · simp only [eraseA, if_neg hk, List.map_cons, List.mem_cons] at h ⊢
      rcases h with h | h
      · exact Or.inl h
      · exact Or.inr (ih h)

theorem keysNodup_eraseA (reg : List (String × Nat)) (f : String)
    (h : keysNodup reg) : keysNodup (eraseA reg f) := by
  induction reg with
  | nil => simpa [eraseA] using h
  | cons p rest ih =>
    obtain ⟨k, v⟩ := p
    simp only [keysNodup, List.map_cons, List.nodup_cons] at h
    by_cases hk : k = f
    · simpa only [eraseA, if_pos hk] using h.2
    · simp only [eraseA, if_neg hk, keysNodup, List.map_cons, List.nodup_cons]
      exact ⟨fun hm => h.1 (mem_keys_eraseA rest f k hm), ih h.2⟩

theorem not_mem_keys_eraseA (reg : List (String × Nat)) (f : String)
    (h : keysNodup reg) : f ∉ (eraseA reg f).map Prod.fst := by
  induction reg with
  | nil => simp [eraseA]
  | cons p rest ih =>
    obtain ⟨k, v⟩ := p
    simp only [keysNodup, List.map_cons, List.nodup_cons] at h
    by_cases hk : k = f
    · simpa only [eraseA, if_pos hk, hk] using fun hm => h.1 (hk ▸ hm)
    · simp only [eraseA, if_neg hk, List.map_cons, List.mem_cons]
      push_neg
      exact ⟨fun he => hk he.symm, ih h.2⟩

theorem lookupA_eraseA (reg : List (String × Nat)) (f : String)
    (h : keysNodup reg) : lookupA (eraseA reg f) f = none :=
  lookupA_eq_none _ _ (not_mem_keys_eraseA reg f h)

theorem keysNodup_insert_eraseA (reg : List (String × Nat)) (f : String) (n : Nat)
    (h : keysNodup reg) : keysNodup ((f, n) :: eraseA reg f) := by
  simp only [keysNodup, List.map_cons, List.nodup_cons]
  exact ⟨not_mem_keys_eraseA reg f h, keysNodup_eraseA reg f h⟩

theorem try_start_keysNodup (env : FollowerEnv) (reg : List (String × Nat)) (next : Nat)
    (f : String) (h : keysNodup reg) : keysNodup (try_start env reg next f).1 := by
  unfold try_start
  by_cases hr : env.resolve_raises f
  · simpa [hr] using h
  · simp only [hr, Bool.false_eq_true, if_false]
    match hm : env.room_id f with
    | none => simpa using h
    | some r =>
      by_cases ha : env.room_alive r
      · simpa [ha] using keysNodup_insert_eraseA reg f next h
      · simpa [ha] using h

theorem process_follower_keysNodup (env : FollowerEnv) (reg : List (String × Nat))
    (next : Nat) (f : String) (h : keysNodup reg) :
    keysNodup (process_follower env reg next f).1 := by
  unfold process_follower
  match hl : lookupA reg f with
  | none => exact try_start_keysNodup env reg next f h
  | some hdl =>
    by_cases ha : env.alive_handle hdl
    · simpa [ha] using h
    · simpa [ha] using try_start_keysNodup env (eraseA reg f) next f (keysNodup_eraseA reg f h)

theorem sweep_followers_keysNodup (env : FollowerEnv) (followers : List String)
    (reg : List (String × Nat)) (next : Nat) (h : keysNodup reg) :
    keysNodup (sweep_followers env followers reg next).1 := by
  induction followers generalizing reg next with
  | nil => simpa [sweep_followers] using h
  | cons f rest ih =>
    simp only [sweep_followers]
    exact ih _ _ (process_follower_keysNodup env reg next f h)

/-! ### Helper lemmas: the spec-modelled streaming loop -/

theorem chunk_step_inv (st : StreamState) (bs : List Nat)
    (h : st.file ++ st.buffer = st.readBytes) :
    (chunk_step st bs).file ++ (chunk_step st bs).buffer = (chunk_step st bs).readBytes := by
  unfold chunk_step
  by_cases hb : BUFFER_SIZE ≤ (st.buffer ++ bs).length
  · simp only [if_pos hb, flushBuffer, List.append_nil]
    rw [← List.append_assoc, h]
  · simp only [if_neg hb]
    rw [← List.append_assoc, h]

theorem stream_loop_flushed (evs : List StreamEvent) (st : StreamState)
    (h : st.file ++ st.buffer = st.readBytes) :
    (stream_loop evs st).1.file = (stream_loop evs st).1.readBytes ∧
      (stream_loop evs st).1.buffer = [] := by
  induction evs generalizing st with
  | nil => exact ⟨h, rfl⟩
  | cons e rest ih =>
    cases e with
    | liveEnd => exact ⟨h, rfl⟩
    | durationCutoff => exact ⟨h, rfl⟩
    | cancel => exact ⟨h, rfl⟩
    | fail => exact ⟨h, rfl⟩
    | chunk bs => exact ih (chunk_step st bs) (chunk_step_inv st bs h)

/-! ### Helper lemmas: output-path injectivity -/

theorem digit_inj : ∀ a, a < 10 → ∀ b, b < 10 → digit a = digit b → a = b := by decide

theorem string_ext (a b : String) (h : a.data = b.data) : a = b := by
  cases a
  cases b
  exact congrArg String.mk h

theorem strftime_data (t : Timestamp) :
    (strftime t).data =
      [digit (t.y / 1000), digit (t.y / 100 % 10), digit (t.y / 10 % 10), digit (t.y % 10),
       '.', digit (t.mo / 10), digit (t.mo % 10), '.', digit (t.d / 10), digit (t.d % 10),
       '_', digit (t.h / 10), digit (t.h % 10), '-', digit (t.mi / 10), digit (t.mi % 10),
       '-', digit (t.s / 10), digit (t.s % 10)] := rfl

theorem strftime_length (t : Timestamp) : (strftime t).data.length = 19 := by
  rw [strftime_data]
  rfl

theorem strftime_inj (t1 t2 : Timestamp) (h1 : valid_time t1) (h2 : valid_time t2)
    (h : strftime t1 = strftime t2) : t1 = t2 := by
  obtain ⟨gy1, gy1b, gmo1, gd1, ghh1, gmi1, gs1⟩ := h1
  obtain ⟨gy2, gy2b, gmo2, gd2, ghh2, gmi2, gs2⟩ := h2
  have hd := congrArg String.data h
  rw [strftime_data, strftime_data] at hd
  simp only [List.cons.injEq, and_true] at hd
  obtain ⟨e1, e2, e3, e4, -, e5, e6, -, e7, e8, -, e9, e10, -, e11, e12, -, e13, e14⟩ := hd
  have f1 := digit_inj _ (by omega) _ (by omega) e1
  have f2 := digit_inj _ (by omega) _ (by omega) e2
  have f3 := digit_inj _ (by omega) _ (by omega) e3
  have f4 := digit_inj _ (by omega) _ (by omega) e4
  have f5 := digit_inj _ (by omega) _ (by omega) e5
  have f6 := digit_inj _ (by omega) _ (by omega) e6
  have f7 := digit_inj _ (by omega) _ (by omega) e7
  have f8 := digit_inj _ (by omega) _ (by omega) e8
  have f9 := digit_inj _ (by omega) _ (by omega) e9
  have f10 := digit_inj _ (by omega) _ (by omega) e10
  have f11 := digit_inj _ (by omega) _ (by omega) e11
  have f12 := digit_inj _ (by omega) _ (by omega) e12
  have f13 := digit_inj _ (by omega) _ (by omega) e13
  have f14 := digit_inj _ (by omega) _ (by omega) e14
  have hy : t1.y = t2.y := by omega
  have hmo : t1.mo = t2.mo := by omega
  have hdd : t1.d = t2.d := by omega
  have hh' : t1.h = t2.h := by omega
  have hmi : t1.mi = t2.mi := by omega
  have hs : t1.s = t2.s := by omega
  cases t1
  cases t2
  simp only [Timestamp.mk.injEq]
  exact ⟨hy, hmo, hdd, hh', hmi, hs⟩

theorem session_filename_inj (u1 u2 : String) (t1 t2 : Timestamp)
    (h1 : valid_time t1) (h2 : valid_time t2)
    (h : session_filename u1 t1 = session_filename u2 t2) : u1 = u2 ∧ t1 = t2 := by
  have hd := congrArg String.data h
  simp only [session_filename, String.data_append, List.append_assoc] at hd
  have hd' := List.append_cancel_left hd
  have hlen : (['_'] ++ ((strftime t1).data ++ ['.', 'm', 'p', '4'])).length
      = (['_'] ++ ((strftime t2).data ++ ['.', 'm', 'p', '4'])).length := by
    simp only [List.length_append, strftime_length]
  obtain ⟨hu, hrest⟩ := List.append_inj' hd' hlen
  have hts : (strftime t1).data = (strftime t2).data := by
    have h1' := List.append_cancel_left hrest
    obtain ⟨h2', -⟩ :=
      List.append_inj h1' (by rw [strftime_length, strftime_length])
    exact h2'
  exact ⟨string_ext _ _ hu, strftime_inj t1 t2 h1 h2 (string_ext _ _ hts)⟩

/-- Counts the Session attempts (`sessionStart` events) in a trace. -/
def countSessions : List Ev → Nat
  | [] => 0
  | .sessionStart _ :: rest => countSessions rest + 1
  | _ :: rest => countSessions rest

/-! ### Claim theorems -/

/-- C5: in Manual mode, if the resolved room is not live the run fails
immediately with the `UserLiveError` carrying `USER_NOT_CURRENTLY_LIVE`
(no session event, no retry — `manual_mode` is a single straight-line call);
if the room is live, exactly one Session is run and `start_recording`'s
outcome is propagated unchanged as the result. -/
theorem claim_C5 (user : String) (sess : SessionEnv) :
    manual_mode user (.ok false) sess
      = ([], .error (.userLiveError .USER_NOT_CURRENTLY_LIVE))
    ∧ manual_mode user (.ok true) sess
      = ([.sessionStart user], .ok (start_recording sess)) :=
  ⟨rfl, rfl⟩

/-- C6: in Automatic mode, for the liveness result sequence
`[false, false, true]`, the loop logs and sleeps `automatic_interval`
minutes after each `false` and attempts a Session exactly once, right after
the `true`. -/
theorem claim_C6 (i : Nat) (u : String) (a1 a2 a3 : AutoEnv) (r1 r2 r3 : String)
    (h1 : a1.resolve = .ok r1) (h2 : a2.resolve = .ok r2) (h3 : a3.resolve = .ok r3)
    (l1 : a1.alive = .ok false) (l2 : a2.alive = .ok false) (l3 : a3.alive = .ok true) :
    (automatic_mode i u [a1, a2, a3]).1
      = [.logInfo, .sleepSeconds (i * TimeOut.ONE_MINUTE),
         .logInfo, .sleepSeconds (i * TimeOut.ONE_MINUTE), .sessionStart u]
    ∧ countSessions (automatic_mode i u [a1, a2, a3]).1 = 1 := by
  have ht : (automatic_mode i u [a1, a2, a3]).1
      = [.logInfo, .sleepSeconds (i * TimeOut.ONE_MINUTE),
         .logInfo, .sleepSeconds (i * TimeOut.ONE_MINUTE), .sessionStart u] := by
    simp [automatic_mode, automatic_iteration, manual_mode, Except.map,
      h1, h2, h3, l1, l2, l3]
  refine ⟨ht, ?_⟩
  rw [ht]
  rfl

/-- C6 witness: the theorem applied to a concrete three-iteration window. -/
def witAutoDown : AutoEnv :=
  { resolve := .ok "room",
    alive := .ok false,
    sess := { live_url := some "url", ffmpeg := .ok (), convert := .ok (),
              use_telegram := false, upload := .ok () } }

/-- Concrete iteration oracle whose room is live. -/
def witAutoUp : AutoEnv :=
  { resolve := .ok "room",
    alive := .ok true,
    sess := { live_url := some "url", ffmpeg := .ok (), convert := .ok (),
              use_telegram := false, upload := .ok () } }

/-- Witness for C6 at a concrete window and interval. -/
theorem claim_C6_wit :
    (automatic_mode 5 "bob" [witAutoDown, witAutoDown, witAutoUp]).1
      = [.logInfo, .sleepSeconds (5 * TimeOut.ONE_MINUTE),
         .logInfo, .sleepSeconds (5 * TimeOut.ONE_MINUTE), .sessionStart "bob"]
    ∧ countSessions (automatic_mode 5 "bob" [witAutoDown, witAutoDown, witAutoUp]).1 = 1 :=
  claim_C6 5 "bob" witAutoDown witAutoDown witAutoUp "room" "room" "room"
    rfl rfl rfl rfl rfl rfl

/-- C7: in Automatic mode, a failure (an `Exception`, hence not
`KeyboardInterrupt`) that is none of `UserLiveError`, `LiveNotFound` or
`ConnectionError` is only logged: the iteration emits no sleep event and the
loop goes straight on to the next iteration. -/
theorem claim_C7 (i : Nat) (u : String) (a : AutoEnv) (rest : List AutoEnv) (e : Exc)
    (he : a.resolve = .error e ∨ ((∃ r, a.resolve = .ok r) ∧ a.alive = .error e))
    (hk : e ≠ .keyboardInterrupt)
    (hu : ∀ m, e ≠ .userLiveError m)
    (hl : ∀ m, e ≠ .liveNotFound m)
    (hc : e ≠ .connectionError) :
    automatic_iteration i u a = ([.logError], .ok ())
    ∧ (∀ n, Ev.sleepSeconds n ∉ (automatic_iteration i u a).1)
    ∧ automatic_mode i u (a :: rest)
        = (Ev.logError :: (automatic_mode i u rest).1, (automatic_mode i u rest).2) := by
  have hiter : automatic_iteration i u a = ([.logError], .ok ()) := by
    rcases he with hres | ⟨⟨r, hres⟩, hal⟩
    · cases e with
      | userLiveError m => exact absurd rfl (hu m)
      | liveNotFound m => exact absurd rfl (hl m)
      | connectionError => exact absurd rfl hc
      | keyboardInterrupt => exact absurd rfl hk
      | recorderError m => simp [automatic_iteration, hres]
      | otherException => simp [automatic_iteration, hres]
    · cases e with
      | userLiveError m => exact absurd rfl (hu m)
      | liveNotFound m => exact absurd rfl (hl m)
      | connectionError => exact absurd rfl hc
      | keyboardInterrupt => exact absurd rfl hk
      | recorderError m =>
        simp [automatic_iteration, manual_mode, Except.map, hres, hal]
      | otherException =>
        simp [automatic_iteration, manual_mode, Except.map, hres, hal]
  refine ⟨hiter, ?_, ?_⟩
  · intro n
    rw [hiter]
    simp
  · simp [automatic_mode, hiter]

/-- Concrete iteration oracle whose room-id resolution raises an unexpected
exception. -/
def witAutoBoom : AutoEnv :=
  { resolve := .error .otherException,
    alive := .ok true,
    sess := { live_url := some "url", ffmpeg := .ok (), convert := .ok (),
              use_telegram := false, upload := .ok () } }

/-- Witness for C7 at a concrete unexpected failure. -/
theorem claim_C7_wit :
    automatic_iteration 5 "bob" witAutoBoom = ([.logError], .ok ())
    ∧ (∀ n, Ev.sleepSeconds n ∉ (automatic_iteration 5 "bob" witAutoBoom).1)
    ∧ automatic_mode 5 "bob" (witAutoBoom :: [witAutoUp])
        = (Ev.logError :: (automatic_mode 5 "bob" [witAutoUp]).1,
           (automatic_mode 5 "bob" [witAutoUp]).2) :=
  claim_C7 5 "bob" witAutoBoom [witAutoUp] .otherException
    (Or.inl rfl) (fun h => Exc.noConfusion h) (fun _ h => Exc.noConfusion h)
    (fun _ h => Exc.noConfusion h) (fun h => Exc.noConfusion h)

/-- C9: for every execution of the streaming loop and every exit path
(normal end of source, liveness loss, duration cutoff, cancellation, error),
every byte read from the source has been written to the output file when the
loop exits, and the buffer is empty.  (The loop is modelled from the spec:
under src `record_with_ffmpeg` delegates streaming to an external ffmpeg
process.) -/
theorem claim_C9 (evs : List StreamEvent) :
    (stream_loop evs ⟨[], [], []⟩).1.file = (stream_loop evs ⟨[], [], []⟩).1.readBytes
    ∧ (stream_loop evs ⟨[], [], []⟩).1.buffer = [] :=
  stream_loop_flushed evs ⟨[], [], []⟩ rfl

/-- C10: if `is_country_blacklisted()` itself raises at startup,
`check_country_blacklisted` logs at debug level, treats the verdict as not
blacklisted and returns `.ok false`; construction then behaves exactly as
with a not-blacklisted verdict, so for every mode a failed country check
never aborts startup. -/
theorem claim_C10 :
    (∀ (room_id : Option String) (mode : Mode),
      check_country_blacklisted (.error ()) room_id mode = .ok false)
    ∧ (∀ (env : InitEnv) (a : Args),
      TikTokRecorder_init { env with blacklist := .error () } a
        = TikTokRecorder_init { env with blacklist := .ok false } a) :=
  ⟨fun _ _ => rfl, fun _ _ => rfl⟩

/-- Concrete session oracle in which ffmpeg raises `ConnectionError` during
recording. -/
def sessConnClosed : SessionEnv :=
  { live_url := some "url", ffmpeg := .error .connectionError, convert := .ok (),
    use_telegram := false, upload := .ok () }

/-- Concrete Automatic-mode iteration oracle: resolution succeeds, the room
is live, and the recording then hits a `ConnectionError`. -/
def autoConnClosed : AutoEnv :=
  { resolve := .ok "room", alive := .ok true, sess := sessConnClosed }

/-- C2 counterexample: when a hard connection-closed condition occurs during
recording, `start_recording` swallows it in its own `except Exception`
handler (returning the logged-error note), the Automatic-mode iteration ends
normally without any sleep event, and the iteration result is not a
propagated `ConnectionError` — so the caller's ConnectionClosed cooldown
handler is not reached, contradicting the claim. -/
theorem claim_C2_cex :
    automatic_iteration 5 "user" autoConnClosed = ([Ev.sessionStart "user"], .ok ())
    ∧ start_recording sessConnClosed = SessionNote.errorLogged
    ∧ (automatic_iteration 5 "user" autoConnClosed).2 ≠ .error Exc.connectionError := by
  refine ⟨rfl, rfl, ?_⟩
  intro h
  exact Except.noConfusion h

/-- C2 (amended): a hard connection-closed condition during recording is
handled inside `start_recording` by its catch-all `except Exception` handler
(logged and notified, not propagated), and the Automatic-mode
ConnectionClosed cooldown handler is reached exactly when the
`ConnectionError` is raised outside `start_recording` — during room-id
re-resolution (or the liveness check); once the room is live and the Session
has started, the iteration emits no sleep at all. -/
theorem claim_C2 :
    (∀ sess : SessionEnv, start_recording_body sess = .error .connectionError →
      start_recording sess = .errorLogged)
    ∧ (∀ (i : Nat) (u : String) (a : AutoEnv), a.resolve = .error .connectionError →
      automatic_iteration i u a
        = ([.logError, .sleepSeconds (TimeOut.CONNECTION_CLOSED * TimeOut.ONE_MINUTE)],
           .ok ()))
    ∧ (∀ (i : Nat) (u : String) (a : AutoEnv) (r : String), a.resolve = .ok r →
      a.alive = .ok true → (automatic_iteration i u a).1 = [.sessionStart u]) := by
  refine ⟨?_, ?_, ?_⟩
  · intro sess h
    simp [start_recording, h]
  · intro i u a h
    simp [automatic_iteration, h]
  · intro i u a r hres hal
    simp [automatic_iteration, manual_mode, Except.map, hres, hal]

/-- Concrete Automatic-mode iteration oracle whose room-id resolution raises
`ConnectionError`. -/
def autoResolveConnClosed : AutoEnv :=
  { resolve := .error .connectionError, alive := .ok true, sess := sessConnClosed }

/-- Witness for C2 at concrete session and iteration oracles. -/
theorem claim_C2_wit :
    start_recording sessConnClosed = .errorLogged
    ∧ automatic_iteration 3 "user" autoResolveConnClosed
        = ([.logError, .sleepSeconds (TimeOut.CONNECTION_CLOSED * TimeOut.ONE_MINUTE)],
           .ok ())
    ∧ (automatic_iteration 3 "user" autoConnClosed).1 = [.sessionStart "user"] :=
  ⟨claim_C2.1 sessConnClosed rfl,
   claim_C2.2.1 3 "user" autoResolveConnClosed rfl,
   claim_C2.2.2 3 "user" autoConnClosed "room" rfl rfl⟩

/-- Concrete constructor oracle whose country check reports "blacklisted". -/
def ienvBlocked : InitEnv :=
  { blacklist := .ok true, sec_uid := some "sec",
    url_resolve := fun _ => ("alice", "42"),
    user_from_room := fun _ => some "alice",
    room_from_user := fun _ => some "42" }

/-- Concrete run oracle: the room is live and the session succeeds. -/
def renvLive : RunEnv :=
  { manual_alive := .ok true,
    manual_sess := { live_url := some "url", ffmpeg := .ok (), convert := .ok (),
                     use_telegram := false, upload := .ok () },
    auto_steps := [], sweeps := [] }

/-- Concrete Manual-mode arguments with a supplied room_id. -/
def argsManualRoom : Args :=
  { url := none, user := some "alice", room_id := some "42", mode := .MANUAL,
    automatic_interval := 5, output := "", duration := none }

/-- C3 counterexample: in Manual mode with a blacklisted verdict but a
supplied room_id, construction does not abort — the whole program runs and
even starts a Session — contradicting "aborts unconditionally regardless of
whether a room_id was supplied, and no Session is ever started". -/
theorem claim_C3_cex :
    program ienvBlocked renvLive argsManualRoom = ([Ev.sessionStart "alice"], .ok ()) := rfl

/-- C3 (amended): in Manual mode with a blacklisted verdict, construction
aborts with the generic country-blacklisted error — before any Session ever
starts (empty event trace) — exactly when no room_id was supplied; with a
supplied room_id the check returns without raising and construction
proceeds. -/
theorem claim_C3 (ienv : InitEnv) (renv : RunEnv) (a : Args)
    (hm : a.mode = Mode.MANUAL) (hb : ienv.blacklist = .ok true) :
    (a.room_id = none →
      program ienv renv a = ([], .error (.recorderError .COUNTRY_BLACKLISTED)))
    ∧ (∀ r, a.room_id = some r →
      ∀ e : Exc, TikTokRecorder_init ienv a ≠ .error e) := by
  constructor
  · intro h
    simp [program, TikTokRecorder_init, check_country_blacklisted, hb, hm, h]
  · intro r h e hcontra
    simp [TikTokRecorder_init, check_country_blacklisted, hb, hm, h] at hcontra

/-- Concrete Manual-mode arguments with no room_id. -/
def argsManualNoRoom : Args :=
  { url := none, user := some "alice", room_id := none, mode := .MANUAL,
    automatic_interval := 5, output := "", duration := none }

/-- Witness for C3 at concrete blocked-constructor oracles. -/
theorem claim_C3_wit :
    program ienvBlocked renvLive argsManualNoRoom
      = ([], .error (.recorderError .COUNTRY_BLACKLISTED))
    ∧ TikTokRecorder_init ienvBlocked argsManualRoom
        ≠ .error (.recorderError .COUNTRY_BLACKLISTED) :=
  ⟨(claim_C3 ienvBlocked renvLive argsManualNoRoom rfl rfl).1 rfl,
   (claim_C3 ienvBlocked renvLive argsManualRoom rfl rfl).2 "42" rfl
     (.recorderError .COUNTRY_BLACKLISTED)⟩

/-- Concrete Automatic-mode arguments with no room_id. -/
def argsAutoNoRoom : Args :=
  { url := none, user := some "bob", room_id := none, mode := .AUTOMATIC,
    automatic_interval := 5, output := "", duration := none }

/-- C4 counterexample: in Automatic mode with a blacklisted verdict and no
supplied room_id, startup does abort, but with the generic
country-blacklisted error kind rather than the Automatic-specific one —
contradicting "the Automatic-mode-specific kind for every combination of
supplied url/user/room_id inputs". -/
theorem claim_C4_cex :
    program ienvBlocked renvLive argsAutoNoRoom
      = ([], .error (.recorderError .COUNTRY_BLACKLISTED))
    ∧ TikTokError.COUNTRY_BLACKLISTED ≠ TikTokError.COUNTRY_BLACKLISTED_AUTO_MODE := by
  exact ⟨rfl, fun h => TikTokError.noConfusion h⟩

/-- C4 (amended): in Automatic mode with a blacklisted verdict, startup
always aborts before any Session or polling-loop event (the trace is empty),
for every combination of url/user/room_id inputs; the raised kind is the
Automatic-specific one exactly when a room_id was supplied, and the generic
country-blacklisted kind when room_id is absent. -/
theorem claim_C4 (ienv : InitEnv) (renv : RunEnv) (a : Args)
    (hm : a.mode = Mode.AUTOMATIC) (hb : ienv.blacklist = .ok true) :
    program ienv renv a
      = ([], .error (.recorderError
          (if a.room_id.isNone then TikTokError.COUNTRY_BLACKLISTED
           else TikTokError.COUNTRY_BLACKLISTED_AUTO_MODE))) := by
  cases hr : a.room_id with
  | none => simp [program, TikTokRecorder_init, check_country_blacklisted, hb, hm, hr]
  | some r => simp [program, TikTokRecorder_init, check_country_blacklisted, hb, hm, hr]

/-- Concrete Automatic-mode arguments with a supplied room_id. -/
def argsAutoRoom : Args :=
  { url := none, user := some "bob", room_id := some "7", mode := .AUTOMATIC,
    automatic_interval := 5, output := "", duration := none }

/-- Witness for C4 at concrete blocked-constructor oracles. -/
theorem claim_C4_wit :
    program ienvBlocked renvLive argsAutoRoom
      = ([], .error (.recorderError
          (if argsAutoRoom.room_id.isNone then TikTokError.COUNTRY_BLACKLISTED
           else TikTokError.COUNTRY_BLACKLISTED_AUTO_MODE))) :=
  claim_C4 ienvBlocked renvLive argsAutoRoom rfl rfl

/-- C1: in Followers mode, for every sweep and every follower — if the
registry holds a handle whose process is still running, the follower is
skipped (registry unchanged, no events, in particular no new Session);
a registered handle survives the follower's step exactly when its process is
still running (an entry is removed exactly when its handle reports the unit
is no longer running); and a sweep preserves key-uniqueness of the registry,
so it maps each target to at most one in-flight Session at every point. -/
theorem claim_C1 (env : FollowerEnv) (reg : List (String × Nat)) (next : Nat)
    (f : String) (h : Nat) :
    (lookupA reg f = some h → env.alive_handle h = true →
      process_follower env reg next f = (reg, next, []))
    ∧ (keysNodup reg → lookupA reg f = some h → h ≠ next →
      (lookupA (process_follower env reg next f).1 f = some h
        ↔ env.alive_handle h = true))
    ∧ (∀ followers : List String, keysNodup reg →
      keysNodup (sweep_followers env followers reg next).1) := by
  refine ⟨?_, ?_, ?_⟩
  · intro hl ha
    simp [process_follower, hl, ha]
  · intro hnd hl hne
    by_cases ha : env.alive_handle h = true
    · simp [process_follower, hl, ha]
    · have ha' : env.alive_handle h = false := by
        revert ha
        cases env.alive_handle h <;> simp
      simp only [process_follower, hl, ha', Bool.false_eq_true, if_false]
      by_cases hrr : env.resolve_raises f = true
      · simp only [try_start, hrr, if_true]
        rw [lookupA_eraseA reg f hnd]
        simp [ha']
      · have hrr' : env.resolve_raises f = false := by
          revert hrr
          cases env.resolve_raises f <;> simp
        simp only [try_start, hrr', Bool.false_eq_true, if_false]
        cases hri : env.room_id f with
        | none =>
          rw [lookupA_eraseA reg f hnd]
          simp [ha']
        | some r =>
          by_cases hra : env.room_alive r = true
          · simp only [hra, if_true, lookupA, if_pos rfl]
            simp [ha', Option.some.injEq, Ne.symm hne]
          · have hra' : env.room_alive r = false := by
              revert hra
              cases env.room_alive r <;> simp
            simp only [hra', Bool.false_eq_true, if_false]
            rw [lookupA_eraseA reg f hnd]
            simp [ha']
  · intro followers hnd
    exact sweep_followers_keysNodup env followers reg next hnd

/-- Concrete sweep oracle: handles are alive, no follower resolves to a live
room. -/
def fenvAllAlive : FollowerEnv :=
  { alive_handle := fun _ => true,
    room_id := fun _ => none,
    room_alive := fun _ => false,
    resolve_raises := fun _ => false }

/-- Witness for C1 at a concrete registry and sweep oracle. -/
theorem claim_C1_wit :
    process_follower fenvAllAlive [("alice", 0)] 1 "alice" = ([("alice", 0)], 1, [])
    ∧ (lookupA (process_follower fenvAllAlive [("alice", 0)] 1 "alice").1 "alice" = some 0
        ↔ fenvAllAlive.alive_handle 0 = true)
    ∧ keysNodup (sweep_followers fenvAllAlive ["alice", "bob"] [("alice", 0)] 1).1 := by
  have c := claim_C1 fenvAllAlive [("alice", 0)] 1 "alice" 0
  refine ⟨c.1 rfl rfl, c.2.1 (by decide) rfl (by decide), c.2.2 ["alice", "bob"] (by decide)⟩

theorem append_slash_ne_empty (o : String) : o ++ "/" ≠ "" := by
  intro hx
  have hd := congrArg String.data hx
  rw [String.data_append] at hd
  simp at hd

theorem append_slash_getLast (o : String) : (o ++ "/").data.getLast? = some '/' := by
  rw [String.data_append]
  exact List.getLast?_concat _

theorem output_path_form (o : String) (hsep : o.data.getLast? ≠ some '\\')
    (u : String) (t : Timestamp) :
    full_output_path o u t = normalize_output o ++ session_filename u t := by
  by_cases ho : o = ""
  · subst ho
    show output_path (normalize_output "") u t = _
    have hno : normalize_output "" = "" := rfl
    rw [hno]
    show session_filename u t = "" ++ session_filename u t
    rfl
  · by_cases hes : ends_with_sep o = true
    · have hsl : o.data.getLast? = some '/' := by
        unfold ends_with_sep at hes
        simp only [Bool.or_eq_true, decide_eq_true_eq] at hes
        rcases hes with hes | hes
        · exact hes
        · exact absurd hes hsep
      have hno : normalize_output o = o := by
        unfold normalize_output
        rw [if_neg ho, if_pos hes]
      show output_path (normalize_output o) u t = _
      rw [hno]
      unfold output_path path_join
      rw [if_neg ho, if_neg ho, if_pos hsl]
    · have hno : normalize_output o = o ++ "/" := by
        unfold normalize_output
        rw [if_neg ho, if_neg hes]
      show output_path (normalize_output o) u t = _
      rw [hno]
      unfold output_path path_join
      rw [if_neg (append_slash_ne_empty o), if_neg (append_slash_ne_empty o),
        if_pos (append_slash_getLast o)]

/-- C8: for every output directory whose trailing character is not a
Windows separator (the embedding models a POSIX host) and all valid
timestamps, the generated output path has exactly the form
`<normalized output dir>TK_<username>_<timestamp>.mp4` (the directory
defaulting to the bare working-directory-relative name), the normalized
nonempty directory ends with a path separator, and distinct
(username, timestamp) pairs yield distinct paths — the path is a
deterministic, injective function of the triple. -/
theorem claim_C8 (o u1 u2 : String) (t1 t2 : Timestamp)
    (h1 : valid_time t1) (h2 : valid_time t2)
    (hsep : o.data.getLast? ≠ some '\\') :
    full_output_path o u1 t1 = normalize_output o ++ session_filename u1 t1
    ∧ (o ≠ "" → (normalize_output o).data.getLast? = some '/'
        ∨ (normalize_output o).data.getLast? = some '\\')
    ∧ (full_output_path o u1 t1 = full_output_path o u2 t2 → u1 = u2 ∧ t1 = t2) := by
  refine ⟨output_path_form o hsep u1 t1, ?_, ?_⟩
  · intro ho
    by_cases hes : ends_with_sep o = true
    · have hno : normalize_output o = o := by
        unfold normalize_output
        rw [if_neg ho, if_pos hes]
      rw [hno]
      unfold ends_with_sep at hes
      simp only [Bool.or_eq_true, decide_eq_true_eq] at hes
      exact hes
    · have hno : normalize_output o = o ++ "/" := by
        unfold normalize_output
        rw [if_neg ho, if_neg hes]
      rw [hno]
      exact Or.inl (append_slash_getLast o)
  · intro heq
    rw [output_path_form o hsep u1 t1, output_path_form o hsep u2 t2] at heq
    have hd := congrArg String.data heq
    rw [String.data_append, String.data_append] at hd
    have hname := List.append_cancel_left hd
    exact session_filename_inj u1 u2 t1 t2 h1 h2 (string_ext _ _ hname)

/-- Witness for C8 at a concrete directory, users and timestamps. -/
theorem claim_C8_wit :
    full_output_path "rec" "alice" ⟨2024, 5, 6, 7, 8, 9⟩
      = normalize_output "rec" ++ session_filename "alice" ⟨2024, 5, 6, 7, 8, 9⟩
    ∧ ("rec" ≠ "" → (normalize_output "rec").data.getLast? = some '/'
        ∨ (normalize_output "rec").data.getLast? = some '\\')
    ∧ (full_output_path "rec" "alice" ⟨2024, 5, 6, 7, 8, 9⟩
        = full_output_path "rec" "bob" ⟨2024, 5, 6, 7, 8, 10⟩
      → "alice" = "bob" ∧ (⟨2024, 5, 6, 7, 8, 9⟩ : Timestamp) = ⟨2024, 5, 6, 7, 8, 10⟩) :=
  claim_C8 "rec" "alice" "bob" ⟨2024, 5, 6, 7, 8, 9⟩ ⟨2024, 5, 6, 7, 8, 10⟩
    (by decide) (by decide) (by decide)

end TTLR
